import Mathlib

/-!
Verification of the ChelData ingestion scripts: a shallow embedding of
`ingest_matches_from_file.py`, `fetch_and_store.py` and
`chel-chatbot/app/main.py` (the SQL guard), with theorems settling the
specification claims about them.

JSON values are modelled by `JVal`; Python `None` and JSON `null` are
collapsed to `JVal.null` (Python code never distinguishes them here),
but *absence* of a dict key is kept distinct via `Option` so that
`dict.get(key, default)` is modelled faithfully.  Operations that would
raise an uncaught exception in Python are modelled by `Option.none`
results of the embedding functions.
-/

/-- A JSON / Python value as handled by the scripts (no floats are needed:
every claim concerns integer, string, object and array data). -/
inductive JVal where
  | null
  | jBool (b : Bool)
  | jInt (n : Int)
  | jStr (s : String)
  | jArr (xs : List JVal)
  | jObj (fields : List (String × JVal))
deriving Repr

/-- Python `v is None` as the scripts use it (JSON null and Python `None`
are identified). -/
def isNull : JVal → Bool
  | .null => true
  | _ => false

/-- Python truthiness of a value (`bool(v)`). -/
def pyTruthy : JVal → Bool
  | .null => false
  | .jBool b => b
  | .jInt n => n != 0
  | .jStr s => s ≠ ""
  | .jArr xs => !xs.isEmpty
  | .jObj fs => !fs.isEmpty

/-- Python `a or b`: `a` when truthy, else `b`. -/
def pyOr (a b : JVal) : JVal := if pyTruthy a then a else b

/-- Lookup of a key in a JSON object's field list (first occurrence),
`Option.none` when the key is absent. -/
def objLookup (fs : List (String × JVal)) (k : String) : Option JVal :=
  (fs.find? (fun p => p.1 == k)).map (fun p => p.2)

/-- Python `d.get(k)` on a dict: the value when present, `None` when absent. -/
def pGet (fs : List (String × JVal)) (k : String) : JVal :=
  (objLookup fs k).getD .null

/-- All characters are decimal digits and the string is nonempty
(Python `str.isdigit` on ASCII data). -/
def allDigits (s : String) : Bool :=
  !s.data.isEmpty && s.data.all (fun c => c.isDigit)

/-- Value of a nonempty digit string. -/
def digitsVal (cs : List Char) : Nat :=
  cs.foldl (fun acc c => acc * 10 + (c.toNat - 48)) 0

/-- Python `int(s)` on a string: strip whitespace, optional sign, digits;
`Option.none` models `ValueError`. -/
def pyParseIntStr (s : String) : Option Int :=
  let cs := s.data.dropWhile (fun c => c.isWhitespace)
  let cs := (cs.reverse.dropWhile (fun c => c.isWhitespace)).reverse
  match cs with
  | [] => none
  | '-' :: rest =>
      if !rest.isEmpty && rest.all (fun c => c.isDigit)
      then some (-(digitsVal rest : Int)) else none
  | '+' :: rest =>
      if !rest.isEmpty && rest.all (fun c => c.isDigit)
      then some ((digitsVal rest : Int)) else none
  | rest =>
      if rest.all (fun c => c.isDigit)
      then some ((digitsVal rest : Int)) else none

/-- Python `int(v)` on a value: identity on ints, 0/1 on bools, string
parse on strings; `Option.none` models the `TypeError`/`ValueError`
raised on `None`, lists and dicts. -/
def pyInt : JVal → Option Int
  | .jInt n => some n
  | .jBool b => some (if b then 1 else 0)
  | .jStr s => pyParseIntStr s
  | _ => none

/-- A per-player row as built by `extract_players_from_match`. -/
structure PlayerRow where
  match_id : JVal
  club_id : Int
  player_id : Int
  player_name : JVal
  position : JVal
  goals : Int
  assists : Int
  points : Int
  score : Int
  result : JVal
deriving Repr

/-- The loop body of `extract_players_from_match`: iterate the stats block
entries in order; keys that fail `int(...)` are skipped (`continue` on
`ValueError`); any other raised conversion aborts (`Option.none`). -/
def procPlayers (matchIdV resultV : JVal) (club_id : Int) :
    List (String × JVal) → Option (List PlayerRow)
  | [] => some []
  | (k, pdata) :: rest =>
    match pyParseIntStr k with
    | none => procPlayers matchIdV resultV club_id rest
    | some pid =>
      match pdata with
      | .jObj pf =>
        match pyInt ((objLookup pf "skgoals").getD (.jInt 0)),
              pyInt ((objLookup pf "skassists").getD (.jInt 0)),
              pyInt ((objLookup pf "score").getD (.jInt 0)),
              procPlayers matchIdV resultV club_id rest with
        | some g, some a, some sc, some tail =>
            some ({ match_id := matchIdV, club_id := club_id, player_id := pid,
                    player_name := pGet pf "playername",
                    position := pGet pf "position",
                    goals := g, assists := a, points := g + a, score := sc,
                    result := resultV } :: tail)
        | _, _, _, _ => none
      | _ => none

/-- `extract_players_from_match(match, club_id)` from
`ingest_matches_from_file.py`: stats live at `players[str(club_id)]`;
missing levels default to `{}`; non-dict levels raise (`Option.none`).
The row's `match_id` is `match.get("matchId")` and `result` is
`match.get("result")`, both read directly from the raw match. -/
def extract_players_from_match (m : JVal) (club_id : Int) :
    Option (List PlayerRow) :=
  match m with
  | .jObj fs =>
    let playersV := (objLookup fs "players").getD (.jObj [])
    match playersV with
    | .jObj pb =>
      let stats := (objLookup pb (toString club_id)).getD (.jObj [])
      match stats with
      | .jObj sb => procPlayers (pGet fs "matchId") (pGet fs "result") club_id sb
      | _ => none
    | _ => none
  | _ => none

/-- The stored `played_at` value: absent, derived from an epoch-milliseconds
number via `datetime.utcfromtimestamp(raw / 1000).isoformat()` (kept
symbolic as the raw number — no claim inspects the rendered string), or
`str(raw)` of a truthy non-numeric value (kept symbolic likewise). -/
inductive PlayedAt where
  | none
  | fromMillis (n : Int)
  | strOf (v : JVal)
deriving Repr

/-- `int(x) if x is not None else None`: `some Option.none` when the value
is `None`, `some (some n)` on a successful conversion, `Option.none`
when `int(...)` raises. -/
def intOrNull : JVal → Option (Option Int)
  | .null => some Option.none
  | v => (pyInt v).map some

/-- A match row as built by `extract_match_row`. -/
structure MatchRow where
  match_id : JVal
  club_id : Int
  opponent_club_id : JVal
  goals_for : Option Int
  goals_against : Option Int
  result : JVal
  match_type : JVal
  played_at : PlayedAt
deriving Repr

/-- The `matchId → id → gameId` fallback chain of `extract_match_row`. -/
def midChain (fs : List (String × JVal)) : JVal :=
  pyOr (pGet fs "matchId") (pyOr (pGet fs "id") (pGet fs "gameId"))

/-- The flat `goalsFor → teamScore` chain of `extract_match_row`. -/
def flatGF (fs : List (String × JVal)) : JVal :=
  pyOr (pGet fs "goalsFor") (pGet fs "teamScore")

/-- The flat `goalsAgainst → opponentScore` chain of `extract_match_row`. -/
def flatGA (fs : List (String × JVal)) : JVal :=
  pyOr (pGet fs "goalsAgainst") (pGet fs "opponentScore")

/-- The flat `opponentClubId → awayClubId` chain of `extract_match_row`. -/
def flatOpp (fs : List (String × JVal)) : JVal :=
  pyOr (pGet fs "opponentClubId") (pGet fs "awayClubId")

/-- The nested-`clubs` refinement step of `extract_match_row`: when the
`clubs` value is a dict containing the club-id string, the block's
`goals`/`score` chains take precedence (via `or`) over the flat chains,
the other club's block refines `goals_against`, and a numeric other-club
key refines `opponent_club_id`.  Returns
`(goals_for, goals_against, opponent_club)` before final conversion. -/
def clubsRefine (fs : List (String × JVal)) (club_id : Int) :
    JVal × JVal × JVal :=
  let gf0 := flatGF fs
  let ga0 := flatGA fs
  let opp0 := flatOpp fs
  let cidS := toString club_id
  match (objLookup fs "clubs").getD (.jObj []) with
  | .jObj cb =>
    if (objLookup cb cidS).isSome then
      let your_club := (objLookup cb cidS).getD (.jObj [])
      let opp_ids := (cb.map (fun (p : String × JVal) => p.1)).filter (fun c => c ≠ cidS)
      let opp_id : Option String := opp_ids.head?
      let opp_block :=
        match opp_id with
        | some oid => (objLookup cb oid).getD (.jObj [])
        | none => .jObj []
      let gf1 :=
        match your_club with
        | .jObj yc => pyOr (pGet yc "goals") (pyOr (pGet yc "score") gf0)
        | _ => gf0
      let ga1 :=
        match opp_block with
        | .jObj ob => pyOr (pGet ob "goals") (pyOr (pGet ob "score") ga0)
        | _ => ga0
      let opp1 :=
        match opp_id with
        | some oid => if oid ≠ "" && allDigits oid
                      then JVal.jInt ((digitsVal oid.data : Nat) : Int)
                      else opp0
        | none => opp0
      (gf1, ga1, opp1)
    else (gf0, ga0, opp0)
  | _ => (gf0, ga0, opp0)

/-- The `playedAt → startTime → date` parsing of `extract_match_row`:
numeric values go through the epoch-milliseconds conversion, truthy
non-numeric values through `str(...)`, the rest becomes `None`. -/
def playedAtOf (fs : List (String × JVal)) : PlayedAt :=
  match pyOr (pGet fs "playedAt") (pyOr (pGet fs "startTime") (pGet fs "date")) with
  | .jInt n => PlayedAt.fromMillis n
  | .jBool b => PlayedAt.fromMillis (if b then 1 else 0)
  | v => if pyTruthy v then PlayedAt.strOf v else PlayedAt.none

/-- `extract_match_row(m, club_id)` from `ingest_matches_from_file.py`.
`now_ms` is the value `int(datetime.utcnow().timestamp() * 1000)` the
call would observe; it is used only when the `matchId`/`id`/`gameId`
chain yields `None`.  `Option.none` models an uncaught exception
(`m` not a dict, or a final `int(...)` conversion failing). -/
def extract_match_row (m : JVal) (club_id : Int) (now_ms : Int) :
    Option MatchRow :=
  match m with
  | .jObj fs =>
    match intOrNull (clubsRefine fs club_id).1,
          intOrNull (clubsRefine fs club_id).2.1 with
    | some goals_for, some goals_against =>
        some { match_id := if isNull (midChain fs) then .jInt now_ms
                           else midChain fs,
               club_id := club_id,
               opponent_club_id := (clubsRefine fs club_id).2.2,
               goals_for := goals_for, goals_against := goals_against,
               result := pyOr (pGet fs "result") (pGet fs "matchResult"),
               match_type := pGet fs "matchType",
               played_at := playedAtOf fs }
    | _, _ => none
  | _ => none

/-- The match rows one ingestion run produces: the i-th raw match is
processed with the i-th clock reading (the millisecond timestamp
`extract_match_row` would observe at that point of the run). -/
def runMatchRows (payload : List JVal) (club_id : Int) (clock : List Int) :
    List (Option MatchRow) :=
  (payload.zip clock).map (fun (p : JVal × Int) => extract_match_row p.1 club_id p.2)

/-- The payload-shape normalization in `main` of
`ingest_matches_from_file.py`: a dict is replaced by its `matches`
(else `data`) value when that value is a list; anything that is not a
list afterwards raises `SystemExit` (modelled `Option.none`). -/
def keyHasList (fs : List (String × JVal)) (k : String) : Bool :=
  match objLookup fs k with
  | some (.jArr _) => true
  | _ => false

/-- Shape normalization of the loaded payload (see `keyHasList`);
`Option.none` models the `SystemExit` abort. -/
def normalizePayload (p : JVal) : Option (List JVal) :=
  let p1 :=
    match p with
    | .jObj fs =>
      if keyHasList fs "matches" then (objLookup fs "matches").getD p
      else if keyHasList fs "data" then (objLookup fs "data").getD p
      else p
    | _ => p
  match p1 with
  | .jArr xs => some xs
  | _ => none

/-- The outcome one fetch attempt observes: an HTTP response with a status
code and a body (`Option.none` body means `resp.json()` raises
`ValueError`), or a network-level `requests.RequestException`. -/
inductive HttpResp where
  | http (code : Nat) (body : Option JVal)
  | netErr
deriving Repr

/-- The attempt loop of `get_json_with_retry` in `fetch_and_store.py`,
over a script of per-attempt outcomes.  Returns the value the function
returns together with the number of attempts it made.  Status 200 with a
parseable body returns that body at once; 200 with an unparseable body
returns `{}` at once; a status in `(429, 502, 503, 504)` and a network
exception fall through to backoff and the next attempt; any other
status returns `{}` at once.  An exhausted budget returns `{}`. -/
def fetchLoop : Nat → List HttpResp → JVal × Nat
  | 0, _ => (JVal.jObj [], 0)
  | n + 1, rs =>
    match rs.headD .netErr with
    | .http c body =>
      if c = 200 then
        match body with
        | some b => (b, 1)
        | none => (JVal.jObj [], 1)
      else if c = 429 ∨ c = 502 ∨ c = 503 ∨ c = 504 then
        let r := fetchLoop n rs.tail
        (r.1, r.2 + 1)
      else (JVal.jObj [], 1)
    | .netErr =>
      let r := fetchLoop n rs.tail
      (r.1, r.2 + 1)

/-- `get_json_with_retry(url, params, max_retries)`: the value returned
after running the attempt loop (default budget is 5 attempts). -/
def get_json_with_retry (max_retries : Nat) (rs : List HttpResp) : JVal :=
  (fetchLoop max_retries rs).1

/-- `b` starts with `a` (character-list prefix test). -/
def isPrefL : List Char → List Char → Bool
  | [], _ => true
  | _ :: _, [] => false
  | a :: as, b :: bs => a == b && isPrefL as bs

/-- Python `needle in hay` on strings, as character lists. -/
def containsSub (needle : List Char) : List Char → Bool
  | [] => isPrefL needle []
  | c :: rest => isPrefL needle (c :: rest) || containsSub needle rest

/-- Characters of `s.lower()` (ASCII lowering, as Python applies here). -/
def lowerChars (s : String) : List Char :=
  s.data.map Char.toLower

/-- The denylist of `execute_sql` in `chel-chatbot/app/main.py`. -/
def bannedWords : List String := ["delete", "update", "insert", "drop", "alter"]

/-- The guard of `execute_sql`: true when the lowercased SQL text contains
some denylisted word, in which case `ValueError("Illegal SQL")` is
raised before any connection is opened. -/
def sqlGuardRejects (sql : String) : Bool :=
  bannedWords.any (fun w => containsSub w.data (lowerChars sql))

/-- `execute_sql(sql)` against an abstract database `db` mapping query
text to result rows: `Option.none` models the raised `ValueError`
(no query is executed); otherwise the query runs and its rows are
returned. -/
def execute_sql (sql : String) (db : String → List (List (String × JVal))) :
    Option (List (List (String × JVal))) :=
  if sqlGuardRejects sql then none else some (db sql)

/-- Concrete input for the end-to-end scenario of the spec: one match with
`matchId = 123` and one player keyed `"55"` under club `"55"`. -/
def scenarioFields : List (String × JVal) :=
  [("matchId", .jInt 123),
   ("players", .jObj [("55", .jObj [("55", .jObj
     [("skgoals", .jInt 2), ("skassists", .jInt 1), ("score", .jInt 300),
      ("playername", .jStr "Doe"), ("position", .jStr "C")])])])]

/-- The scenario match object. -/
def mScenario : JVal := .jObj scenarioFields

/-- The match row the scenario produces. -/
def rowScenarioMatch : MatchRow :=
  { match_id := .jInt 123, club_id := 55, opponent_club_id := .null,
    goals_for := none, goals_against := none, result := .null,
    match_type := .null, played_at := .none }

/-- The player row the scenario produces. -/
def rowScenarioPlayer : PlayerRow :=
  { match_id := .jInt 123, club_id := 55, player_id := 55,
    player_name := .jStr "Doe", position := .jStr "C",
    goals := 2, assists := 1, points := 3, score := 300, result := .null }

/-- A match whose only id field is `id`, with one player entry: the match
row's id comes from the `id` fallback but the player row reads only
`matchId`. -/
def mIdOnly : JVal :=
  .jObj [("id", .jInt 5), ("result", .jStr "W"),
         ("players", .jObj [("55", .jObj [("7", .jObj [])])])]

/-- A match carrying `goalsFor = 0` next to `teamScore = 5`. -/
def mZeroGoalsFor : JVal :=
  .jObj [("goalsFor", .jInt 0), ("teamScore", .jInt 5)]

/-  ------------------------------------------------------------------
    Helper lemmas
    ------------------------------------------------------------------ -/

/-- A truthy value is not `None`. -/
theorem pyTruthy_not_null (v : JVal) (h : pyTruthy v = true) :
    isNull v = false := by
  cases v <;> simp_all [pyTruthy, isNull]

/-- The final `int(x) if x is not None else None` conversion step: when
the selected value is truthy, the stored field is `pyInt` of it. -/
theorem intOrNull_truthy (v : JVal) (o : Option Int)
    (hv : pyTruthy v = true)
    (h : intOrNull v = some o) :
    pyInt v = o := by
  cases v <;> simp_all [pyTruthy, intOrNull, Option.map_eq_some']
  all_goals (obtain ⟨x, hx, ho⟩ := h; rw [← ho]; exact hx)

/-- Every row `procPlayers` yields carries the supplied `match_id`,
`result` and `club_id`, satisfies `points = goals + assists`, and stems
from a dict entry whose key parses as its `player_id`, with `goals` and
`assists` converted from `skgoals` / `skassists` (default `0`). -/
theorem procPlayers_rows :
    ∀ (sb : List (String × JVal)) (mid res : JVal) (c : Int)
      (rows : List PlayerRow),
      procPlayers mid res c sb = some rows →
      ∀ r ∈ rows,
        r.match_id = mid ∧ r.result = res ∧ r.club_id = c ∧
        r.points = r.goals + r.assists ∧
        ∃ k pf, (k, JVal.jObj pf) ∈ sb ∧
          pyParseIntStr k = some r.player_id ∧
          pyInt ((objLookup pf "skgoals").getD (JVal.jInt 0)) = some r.goals ∧
          pyInt ((objLookup pf "skassists").getD (JVal.jInt 0)) = some r.assists
  | [], mid, res, c, rows, h => by
      simp only [procPlayers, Option.some.injEq] at h
      subst h; intro r hr; cases hr
  | (k, pdata) :: rest, mid, res, c, rows, h => by
      rw [procPlayers] at h
      split at h
      · intro r hr
        obtain ⟨h1, h2, h3, h4, kk, pf, hmem, hrest⟩ :=
          procPlayers_rows rest mid res c rows h r hr
        exact ⟨h1, h2, h3, h4, kk, pf, List.mem_cons_of_mem _ hmem, hrest⟩
      · next pid hk =>
        split at h
        · next pf =>
          split at h
          · next g a sc tail hg ha hsc ht =>
            simp only [Option.some.injEq] at h
            subst h
            intro r hr
            rcases List.mem_cons.mp hr with rfl | hr
            · exact ⟨rfl, rfl, rfl, rfl, k, pf,
                List.mem_cons_self _ _, hk, hg, ha⟩
            · obtain ⟨h1, h2, h3, h4, kk, pf2, hmem, hrest⟩ :=
                procPlayers_rows rest mid res c tail ht r hr
              exact ⟨h1, h2, h3, h4, kk, pf2,
                List.mem_cons_of_mem _ hmem, hrest⟩
          · simp at h
        · simp at h

/-- When the `players` and club-id levels are present dicts,
`extract_players_from_match` is exactly `procPlayers` on that stats
block, with `matchId` and `result` read raw from the match. -/
theorem extract_players_proc (fs : List (String × JVal)) (c : Int)
    (pb sb : List (String × JVal))
    (hp : objLookup fs "players" = some (JVal.jObj pb))
    (hs : objLookup pb (toString c) = some (JVal.jObj sb)) :
    extract_players_from_match (JVal.jObj fs) c
      = procPlayers (pGet fs "matchId") (pGet fs "result") c sb := by
  simp [extract_players_from_match, hp, hs]

/-- Characterization of a successful `extract_match_row` on a dict: every
stored field in terms of the chain and refinement helpers. -/
theorem extract_match_row_eq (fs : List (String × JVal)) (c t : Int)
    (mr : MatchRow)
    (h : extract_match_row (JVal.jObj fs) c t = some mr) :
    intOrNull (clubsRefine fs c).1 = some mr.goals_for ∧
    intOrNull (clubsRefine fs c).2.1 = some mr.goals_against ∧
    mr.match_id = (if isNull (midChain fs) then JVal.jInt t else midChain fs) ∧
    mr.club_id = c ∧
    mr.opponent_club_id = (clubsRefine fs c).2.2 ∧
    mr.result = pyOr (pGet fs "result") (pGet fs "matchResult") ∧
    mr.match_type = pGet fs "matchType" ∧
    mr.played_at = playedAtOf fs := by
  rw [extract_match_row] at h
  split at h
  · next gf ga hgf hga =>
      simp only [Option.some.injEq] at h
      subst h
      exact ⟨hgf, hga, rfl, rfl, rfl, rfl, rfl, rfl⟩
  · simp at h

/-- Without a usable nested `clubs` dict the refinement step returns the
flat chains unchanged. -/
theorem clubsRefine_no_clubs (fs : List (String × JVal)) (c : Int)
    (h : objLookup fs "clubs" = none) :
    clubsRefine fs c = (flatGF fs, flatGA fs, flatOpp fs) := by
  unfold clubsRefine
  rw [h]
  simp [objLookup]

/-- With a nested `clubs` dict containing the club id, `goals_for` is the
block's `goals → score → flat` chain. -/
theorem clubsRefine_yours (fs cb yc : List (String × JVal)) (c : Int)
    (hc : objLookup fs "clubs" = some (JVal.jObj cb))
    (hyc : objLookup cb (toString c) = some (JVal.jObj yc)) :
    (clubsRefine fs c).1
      = pyOr (pGet yc "goals") (pyOr (pGet yc "score") (flatGF fs)) := by
  simp [clubsRefine, hc, hyc]

/-- With a nested `clubs` dict containing the club id and a first other
club key holding a dict, `goals_against` is that block's
`goals → score → flat` chain. -/
theorem clubsRefine_opp (fs cb yc ob : List (String × JVal)) (c : Int)
    (oid : String) (restIds : List String)
    (hc : objLookup fs "clubs" = some (JVal.jObj cb))
    (hyc : objLookup cb (toString c) = some (JVal.jObj yc))
    (hids : (cb.map (fun (p : String × JVal) => p.1)).filter
              (fun s => s ≠ toString c) = oid :: restIds)
    (hob : objLookup cb oid = some (JVal.jObj ob)) :
    (clubsRefine fs c).2.1
      = pyOr (pGet ob "goals") (pyOr (pGet ob "score") (flatGA fs)) := by
  unfold clubsRefine
  rw [hc]
  simp only [Option.getD_some]
  rw [hyc]
  simp only [Option.isSome_some, if_true]
  rw [hids]
  simp [hob]

/-- A successful `extract_players_from_match` on a dict either produced
no rows or went through `procPlayers` on the stats block found at
`players[str(club_id)]`. -/
theorem extract_players_cases (fs : List (String × JVal)) (c : Int)
    (rows : List PlayerRow)
    (h : extract_players_from_match (JVal.jObj fs) c = some rows) :
    rows = [] ∨
    ∃ pb sb, objLookup fs "players" = some (JVal.jObj pb) ∧
      objLookup pb (toString c) = some (JVal.jObj sb) ∧
      procPlayers (pGet fs "matchId") (pGet fs "result") c sb = some rows := by
  rw [extract_players_from_match] at h
  cases hp : objLookup fs "players" with
  | none =>
      rw [hp] at h
      simp [objLookup, procPlayers] at h
      exact Or.inl h
  | some v =>
      rw [hp] at h
      cases v with
      | jObj pb =>
          simp only [Option.getD_some] at h
          cases hs : objLookup pb (toString c) with
          | none =>
              rw [hs] at h
              simp [procPlayers] at h
              exact Or.inl h
          | some w =>
              rw [hs] at h
              cases w with
              | jObj sb =>
                  refine Or.inr ⟨pb, sb, rfl, hs, ?_⟩
                  simpa using h
              | null => simp at h
              | jBool b => simp at h
              | jInt n => simp at h
              | jStr s => simp at h
              | jArr xs => simp at h
      | null => simp at h
      | jBool b => simp at h
      | jInt n => simp at h
      | jStr s => simp at h
      | jArr xs => simp at h

/-- Prefix tests compose: a prefix of a prefix is a prefix. -/
theorem isPrefL_trans : ∀ (a b c : List Char),
    isPrefL a b = true → isPrefL b c = true → isPrefL a c = true
  | [], _, _, _, _ => rfl
  | _ :: _, [], _, hab, _ => by simp [isPrefL] at hab
  | _ :: _, _ :: _, [], _, hbc => by simp [isPrefL] at hbc
  | x :: as, y :: bs, z :: cs, hab, hbc => by
      simp only [isPrefL, Bool.and_eq_true, beq_iff_eq] at hab hbc ⊢
      obtain ⟨hxy, hab⟩ := hab
      obtain ⟨hyz, hbc⟩ := hbc
      exact ⟨hxy.trans hyz, isPrefL_trans as bs cs hab hbc⟩

/-- If text contains a needle, it contains every prefix of that needle. -/
theorem containsSub_mono : ∀ (small big hay : List Char),
    isPrefL small big = true → containsSub big hay = true →
    containsSub small hay = true
  | small, big, [], hpre, h => by
      cases big with
      | nil =>
          cases small with
          | nil => exact h
          | cons x xs => simp [isPrefL] at hpre
      | cons y ys => simp [containsSub, isPrefL] at h
  | small, big, c :: rest, hpre, h => by
      simp only [containsSub, Bool.or_eq_true] at h ⊢
      rcases h with h | h
      · exact Or.inl (isPrefL_trans small big (c :: rest) hpre h)
      · exact Or.inr (containsSub_mono small big rest hpre h)

/-  ------------------------------------------------------------------
    Claims
    ------------------------------------------------------------------ -/

/-- Claim C3 counterexample: the spec calls status 500 retryable, but the
fetch loop's retryable set is only `(429, 502, 503, 504)`: a 500 answer
on the first attempt makes `get_json_with_retry` return `{}` after
exactly one attempt, never reaching the valid JSON scripted for the
second attempt. -/
theorem fetch_500_fatal_counterexample :
    fetchLoop 5 [HttpResp.http 500 (some (JVal.jObj [("x", JVal.jInt 1)])),
                 HttpResp.http 200 (some (JVal.jObj [("g", JVal.jInt 7)]))]
      = (JVal.jObj [], 1) ∧
    get_json_with_retry 5
        [HttpResp.http 500 (some (JVal.jObj [("x", JVal.jInt 1)])),
         HttpResp.http 200 (some (JVal.jObj [("g", JVal.jInt 7)]))]
      ≠ JVal.jObj [("g", JVal.jInt 7)] := by
  refine ⟨rfl, ?_⟩
  intro hcontra
  rw [show get_json_with_retry 5
        [HttpResp.http 500 (some (JVal.jObj [("x", JVal.jInt 1)])),
         HttpResp.http 200 (some (JVal.jObj [("g", JVal.jInt 7)]))]
      = JVal.jObj [] from rfl] at hcontra
  simp at hcontra

/-- Claim C3 amended: the retryable set is `{429, 502, 503, 504}`; any
other non-200 status (including 408 and 500) is fatal — the loop
returns `{}` after that single attempt — while a status in the set
falls through to another attempt. -/
theorem fetch_status_classification :
    (∀ (n : Nat) (rs : List HttpResp) (c : Nat) (b : Option JVal),
       c ≠ 200 → ¬(c = 429 ∨ c = 502 ∨ c = 503 ∨ c = 504) →
       fetchLoop (n + 1) (HttpResp.http c b :: rs) = (JVal.jObj [], 1)) ∧
    (∀ (n : Nat) (rs : List HttpResp) (c : Nat) (b : Option JVal),
       (c = 429 ∨ c = 502 ∨ c = 503 ∨ c = 504) →
       fetchLoop (n + 1) (HttpResp.http c b :: rs)
         = ((fetchLoop n rs).1, (fetchLoop n rs).2 + 1)) := by
  constructor
  · intro n rs c b h1 h2
    simp [fetchLoop, h1, h2]
  · intro n rs c b h
    rcases h with rfl | rfl | rfl | rfl <;> simp [fetchLoop]

/-- Witness for the amended C3 statement at status 500. -/
theorem fetch_status_classification_witness :
    (500 ≠ 200) ∧ ¬(500 = 429 ∨ 500 = 502 ∨ 500 = 503 ∨ 500 = 504) ∧
    fetchLoop 5 [HttpResp.http 500 none] = (JVal.jObj [], 1) :=
  ⟨by decide, by decide,
    fetch_status_classification.1 4 [] 500 none (by decide) (by decide)⟩

/-- Claim C4 counterexample: a 200 response whose body is the empty JSON
object is returned as the result after one attempt, and a 200 response
with an unparseable body yields `{}` after one attempt — neither falls
through to retry, although valid JSON is scripted for attempt two. -/
theorem fetch_soft_failure_counterexample :
    fetchLoop 5 [HttpResp.http 200 (some (JVal.jObj [])),
                 HttpResp.http 200 (some (JVal.jObj [("g", JVal.jInt 7)]))]
      = (JVal.jObj [], 1) ∧
    fetchLoop 5 [HttpResp.http 200 none,
                 HttpResp.http 200 (some (JVal.jObj [("g", JVal.jInt 7)]))]
      = (JVal.jObj [], 1) := ⟨rfl, rfl⟩

/-- Claim C4 amended: a 200 response with any parseable JSON body — the
empty object included — is returned immediately as the result, and a
200 response with an unparseable body makes the fetcher return `{}`
immediately; neither is retried. -/
theorem fetch_200_immediate (n : Nat) (rs : List HttpResp) (b : JVal) :
    fetchLoop (n + 1) (HttpResp.http 200 (some b) :: rs) = (b, 1) ∧
    fetchLoop (n + 1) (HttpResp.http 200 none :: rs) = (JVal.jObj [], 1) := by
  constructor <;> simp [fetchLoop]

/-- Claim C7: wrapping a match list as `{"matches": [...]}`, as
`{"data": [...]}`, or passing the bare array yields the same normalized
record list. -/
theorem normalize_shape_invariance (ms : List JVal) :
    normalizePayload (JVal.jObj [("matches", JVal.jArr ms)]) = some ms ∧
    normalizePayload (JVal.jObj [("data", JVal.jArr ms)]) = some ms ∧
    normalizePayload (JVal.jArr ms) = some ms := ⟨rfl, rfl, rfl⟩

/-- Claim C8 counterexample: a mapping with neither a `matches` nor a
`data` list is not wrapped as a single match — `main` raises
`SystemExit` (modelled as `none`) instead of processing it. -/
theorem normalize_single_match_counterexample :
    normalizePayload (JVal.jObj [("matchId", JVal.jInt 1)]) = none ∧
    ¬ normalizePayload (JVal.jObj [("matchId", JVal.jInt 1)])
        = some [JVal.jObj [("matchId", JVal.jInt 1)]] := by
  refine ⟨rfl, ?_⟩
  intro hcontra
  rw [show normalizePayload (JVal.jObj [("matchId", JVal.jInt 1)]) = none
      from rfl] at hcontra
  exact Option.noConfusion hcontra

/-- Claim C8 amended: a payload that does not resolve to a list — a
mapping without a `matches`/`data` list value, or a scalar — makes the
ingestion abort with `SystemExit` rather than wrapping a single match
or yielding an empty record list. -/
theorem normalize_unrecognized_aborts :
    (∀ fs, keyHasList fs "matches" = false → keyHasList fs "data" = false →
       normalizePayload (JVal.jObj fs) = none) ∧
    normalizePayload JVal.null = none ∧
    (∀ n, normalizePayload (JVal.jInt n) = none) ∧
    (∀ s, normalizePayload (JVal.jStr s) = none) := by
  refine ⟨?_, rfl, fun n => rfl, fun s => rfl⟩
  intro fs h1 h2
  simp [normalizePayload, h1, h2]

/-- Witness for the amended C8 statement at a single-match mapping. -/
theorem normalize_unrecognized_aborts_witness :
    keyHasList [("matchId", JVal.jInt 1)] "matches" = false ∧
    keyHasList [("matchId", JVal.jInt 1)] "data" = false ∧
    normalizePayload (JVal.jObj [("matchId", JVal.jInt 1)]) = none :=
  ⟨rfl, rfl, normalize_unrecognized_aborts.1 [("matchId", JVal.jInt 1)] rfl rfl⟩

/-- Claim C9: the SQL guard raises — executing no query — on every text
whose lowercasing contains a denylisted word (`delete`, `update`,
`insert`, `drop`, `alter`), hence on any text containing
`DROP TABLE matches` in any letter case, and it accepts and executes
the plain query `SELECT * FROM matches LIMIT 5`. -/
theorem sql_guard_denylist :
    (∀ (sql : String) (db : String → List (List (String × JVal)))
       (w : String), w ∈ bannedWords →
       containsSub w.data (lowerChars sql) = true →
       execute_sql sql db = none) ∧
    (∀ (sql : String) (db : String → List (List (String × JVal))),
       containsSub (lowerChars "DROP TABLE matches") (lowerChars sql) = true →
       execute_sql sql db = none) ∧
    (∀ db : String → List (List (String × JVal)),
       execute_sql "SELECT * FROM matches LIMIT 5" db
         = some (db "SELECT * FROM matches LIMIT 5")) := by
  have hrej : ∀ (sql : String) (w : String), w ∈ bannedWords →
      containsSub w.data (lowerChars sql) = true →
      sqlGuardRejects sql = true := by
    intro sql w hw h
    unfold sqlGuardRejects
    exact List.any_eq_true.mpr ⟨w, hw, h⟩
  refine ⟨?_, ?_, ?_⟩
  · intro sql db w hw h
    simp [execute_sql, hrej sql w hw h]
  · intro sql db h
    have hdrop : containsSub ("drop".data) (lowerChars sql) = true :=
      containsSub_mono ("drop".data) (lowerChars "DROP TABLE matches")
        (lowerChars sql) (by decide) h
    simp [execute_sql, hrej sql "drop" (by simp [bannedWords]) hdrop]
  · intro db
    rfl

/-- Witness for C9 on a concrete mixed-case disallowed text. -/
theorem sql_guard_denylist_witness :
    containsSub (lowerChars "DROP TABLE matches")
        (lowerChars "sElEcT 1; DrOp TaBlE matches") = true ∧
    execute_sql "sElEcT 1; DrOp TaBlE matches" (fun _ => []) = none ∧
    execute_sql "SELECT * FROM matches LIMIT 5" (fun _ => []) = some [] :=
  ⟨by decide,
   sql_guard_denylist.2.1 "sElEcT 1; DrOp TaBlE matches" (fun _ => [])
     (by decide),
   sql_guard_denylist.2.2 (fun _ => [])⟩

/-- Claim C1: every player row the extraction produces stores
`points = goals + assists` exactly, with `goals` converted from the
entry's `skgoals` (default `0` when absent) and `assists` from
`skassists` (default `0` when absent); `points` is never read from the
payload. -/
theorem player_points_invariant (m : JVal) (c : Int) (rows : List PlayerRow)
    (h : extract_players_from_match m c = some rows) :
    ∀ r ∈ rows,
      r.points = r.goals + r.assists ∧
      ∀ fs pb sb, m = JVal.jObj fs →
        objLookup fs "players" = some (JVal.jObj pb) →
        objLookup pb (toString c) = some (JVal.jObj sb) →
        ∃ k pf, (k, JVal.jObj pf) ∈ sb ∧
          pyParseIntStr k = some r.player_id ∧
          pyInt ((objLookup pf "skgoals").getD (JVal.jInt 0)) = some r.goals ∧
          pyInt ((objLookup pf "skassists").getD (JVal.jInt 0)) = some r.assists := by
  cases m with
  | jObj fs =>
      rcases extract_players_cases fs c rows h with rfl | ⟨pb, sb, hp, hs, hproc⟩
      · intro r hr; cases hr
      · intro r hr
        obtain ⟨h1, h2, h3, h4, k, pf, hmem, hparse, hg, ha⟩ :=
          procPlayers_rows sb (pGet fs "matchId") (pGet fs "result") c rows
            hproc r hr
        refine ⟨h4, ?_⟩
        intro fs2 pb2 sb2 hfs hp2 hs2
        cases hfs
        rw [hp] at hp2
        obtain rfl : pb = pb2 := by
          injection hp2 with hpv; injection hpv
        rw [hs] at hs2
        obtain rfl : sb = sb2 := by
          injection hs2 with hsv; injection hsv
        exact ⟨k, pf, hmem, hparse, hg, ha⟩
  | null => simp [extract_players_from_match] at h
  | jBool b => simp [extract_players_from_match] at h
  | jInt n => simp [extract_players_from_match] at h
  | jStr s => simp [extract_players_from_match] at h
  | jArr xs => simp [extract_players_from_match] at h

/-- Witness for C1 at the end-to-end scenario input. -/
theorem player_points_invariant_witness :
    extract_players_from_match mScenario 55 = some [rowScenarioPlayer] ∧
    rowScenarioPlayer.points = rowScenarioPlayer.goals + rowScenarioPlayer.assists :=
  ⟨rfl,
   (player_points_invariant mScenario 55 [rowScenarioPlayer] rfl
     rowScenarioPlayer (List.mem_singleton.mpr rfl)).1⟩

/-- Claim C10: with no `players` key, or no entry for the club id, the
extraction returns the empty list without raising, and every produced
row stems from a stats-block entry whose key parses as an integer —
non-parsing keys never produce a row. -/
theorem player_extraction_missing_levels (fs : List (String × JVal)) (c : Int) :
    (objLookup fs "players" = none →
       extract_players_from_match (JVal.jObj fs) c = some []) ∧
    (∀ pb, objLookup fs "players" = some (JVal.jObj pb) →
       objLookup pb (toString c) = none →
       extract_players_from_match (JVal.jObj fs) c = some []) ∧
    (∀ rows, extract_players_from_match (JVal.jObj fs) c = some rows →
       ∀ r ∈ rows, ∀ pb sb,
         objLookup fs "players" = some (JVal.jObj pb) →
         objLookup pb (toString c) = some (JVal.jObj sb) →
         ∃ k v, (k, v) ∈ sb ∧ pyParseIntStr k = some r.player_id) := by
  refine ⟨?_, ?_, ?_⟩
  · intro h
    simp only [extract_players_from_match]
    rw [h]
    simp [objLookup, procPlayers]
  · intro pb hp hs
    simp only [extract_players_from_match]
    rw [hp]
    simp only [Option.getD_some]
    rw [hs]
    simp [objLookup, procPlayers]
  · intro rows h r hr pb sb hp hs
    rcases extract_players_cases fs c rows h with rfl | ⟨pb2, sb2, hp2, hs2, hproc⟩
    · cases hr
    · rw [hp] at hp2
      have hpeq : pb = pb2 := by simpa using hp2
      subst hpeq
      rw [hs] at hs2
      have hseq : sb = sb2 := by simpa using hs2
      subst hseq
      obtain ⟨_, _, _, _, k, pf, hmem, hparse, _, _⟩ :=
        procPlayers_rows sb (pGet fs "matchId") (pGet fs "result") c rows
          hproc r hr
      exact ⟨k, JVal.jObj pf, hmem, hparse⟩

/-- Witness for C10 at a match without a `players` key. -/
theorem player_extraction_missing_levels_witness :
    objLookup [("matchId", JVal.jInt 9)] "players" = none ∧
    extract_players_from_match (JVal.jObj [("matchId", JVal.jInt 9)]) 55
      = some [] :=
  ⟨rfl, (player_extraction_missing_levels [("matchId", JVal.jInt 9)] 55).1 rfl⟩

/-- Claim C2 counterexample: for a match whose id arrives through the `id`
fallback, the match row's `match_id` is that id (5) but the player row
is stamped with the raw `matchId` field, which is absent, i.e. null —
not the canonical match id. -/
theorem player_match_id_counterexample :
    (extract_match_row mIdOnly 55 999).map MatchRow.match_id
      = some (JVal.jInt 5) ∧
    (extract_players_from_match mIdOnly 55).map
        (fun rs => rs.map PlayerRow.match_id)
      = some [JVal.null] ∧
    (some (JVal.jInt 5) : Option JVal) ≠ some JVal.null := by
  refine ⟨rfl, rfl, ?_⟩
  intro hcontra
  simp at hcontra

/-- Claim C2 amended: every player row is stamped with `club_id`, the
parent match's `result`, and a `match_id` read directly from the raw
`matchId` field (null when that field is absent — the `id`/`gameId`
fallbacks and the synthesized id are not propagated); the player row's
`match_id` agrees with the match row's canonical id whenever the raw
`matchId` is truthy, and the concrete scenario (matchId 123, player 55
with 2 goals, 1 assist, score 300, name Doe) yields exactly the stated
match and player rows. -/
theorem player_row_stamping :
    (∀ (fs : List (String × JVal)) (c t : Int) (rows : List PlayerRow),
       extract_players_from_match (JVal.jObj fs) c = some rows →
       ∀ r ∈ rows,
         r.club_id = c ∧ r.result = pGet fs "result" ∧
         r.match_id = pGet fs "matchId" ∧
         (pyTruthy (pGet fs "matchId") = true →
           ∀ mr, extract_match_row (JVal.jObj fs) c t = some mr →
             mr.match_id = r.match_id)) ∧
    (extract_match_row mScenario 55 999 = some rowScenarioMatch ∧
     extract_players_from_match mScenario 55 = some [rowScenarioPlayer]) := by
  refine ⟨?_, rfl, rfl⟩
  intro fs c t rows h r hr
  rcases extract_players_cases fs c rows h with rfl | ⟨pb, sb, hp, hs, hproc⟩
  · cases hr
  · obtain ⟨h1, h2, h3, _, _⟩ :=
      procPlayers_rows sb (pGet fs "matchId") (pGet fs "result") c rows
        hproc r hr
    refine ⟨h3, h2, h1, ?_⟩
    intro ht mr hmr
    obtain ⟨_, _, hmid, _⟩ := extract_match_row_eq fs c t mr hmr
    rw [hmid, h1]
    have hchain : midChain fs = pGet fs "matchId" := by
      simp [midChain, pyOr, ht]
    rw [hchain, pyTruthy_not_null (pGet fs "matchId") ht]
    simp

/-- Witness for the amended C2 statement at the scenario input. -/
theorem player_row_stamping_witness :
    extract_players_from_match (JVal.jObj scenarioFields) 55
      = some [rowScenarioPlayer] ∧
    pyTruthy (pGet scenarioFields "matchId") = true ∧
    extract_match_row (JVal.jObj scenarioFields) 55 999
      = some rowScenarioMatch ∧
    rowScenarioMatch.match_id = rowScenarioPlayer.match_id :=
  ⟨rfl, rfl, rfl,
   (player_row_stamping.1 scenarioFields 55 999 [rowScenarioPlayer] rfl
     rowScenarioPlayer (List.mem_singleton.mpr rfl)).2.2.2 rfl
     rowScenarioMatch rfl⟩

/-- Claim C6 counterexample: two id-less matches processed in the same
millisecond receive the same synthesized `match_id`, and a synthesized
id can equal another record's explicit id in the same run. -/
theorem synthetic_id_collision_counterexample :
    (runMatchRows [JVal.jObj [], JVal.jObj []] 55 [1000, 1000]).map
        (fun o => o.map MatchRow.match_id)
      = [some (JVal.jInt 1000), some (JVal.jInt 1000)] ∧
    (runMatchRows [JVal.jObj [], JVal.jObj [("matchId", JVal.jInt 1000)]] 55
        [1000, 2000]).map (fun o => o.map MatchRow.match_id)
      = [some (JVal.jInt 1000), some (JVal.jInt 1000)] := ⟨rfl, rfl⟩

/-- Claim C6 amended: a synthesized `match_id` is exactly the millisecond
clock reading observed while processing that match, so two id-less
matches get distinct ids precisely when their clock readings differ —
nothing else enforces uniqueness or prevents collision with explicit
ids. -/
theorem synthetic_id_from_clock (fs1 fs2 : List (String × JVal))
    (c t1 t2 : Int) (r1 r2 : MatchRow)
    (h1 : midChain fs1 = JVal.null) (h2 : midChain fs2 = JVal.null)
    (e1 : extract_match_row (JVal.jObj fs1) c t1 = some r1)
    (e2 : extract_match_row (JVal.jObj fs2) c t2 = some r2) :
    r1.match_id = JVal.jInt t1 ∧ r2.match_id = JVal.jInt t2 ∧
    (t1 ≠ t2 → r1.match_id ≠ r2.match_id) := by
  obtain ⟨_, _, hmid1, _⟩ := extract_match_row_eq fs1 c t1 r1 e1
  obtain ⟨_, _, hmid2, _⟩ := extract_match_row_eq fs2 c t2 r2 e2
  rw [h1] at hmid1
  rw [h2] at hmid2
  simp only [isNull, if_true] at hmid1 hmid2
  refine ⟨hmid1, hmid2, ?_⟩
  intro hne heq
  rw [hmid1, hmid2] at heq
  injection heq with hv
  exact hne hv

/-- Witness for the amended C6 statement on two empty matches at clock
readings 1 and 2. -/
theorem synthetic_id_from_clock_witness :
    midChain ([] : List (String × JVal)) = JVal.null ∧
    extract_match_row (JVal.jObj []) 55 1
      = some { match_id := JVal.jInt 1, club_id := 55,
               opponent_club_id := JVal.null, goals_for := none,
               goals_against := none, result := JVal.null,
               match_type := JVal.null, played_at := PlayedAt.none } ∧
    extract_match_row (JVal.jObj []) 55 2
      = some { match_id := JVal.jInt 2, club_id := 55,
               opponent_club_id := JVal.null, goals_for := none,
               goals_against := none, result := JVal.null,
               match_type := JVal.null, played_at := PlayedAt.none } ∧
    ({ match_id := JVal.jInt 1, club_id := 55,
       opponent_club_id := JVal.null, goals_for := none,
       goals_against := none, result := JVal.null,
       match_type := JVal.null, played_at := PlayedAt.none } : MatchRow).match_id
      ≠ ({ match_id := JVal.jInt 2, club_id := 55,
           opponent_club_id := JVal.null, goals_for := none,
           goals_against := none, result := JVal.null,
           match_type := JVal.null, played_at := PlayedAt.none } : MatchRow).match_id :=
  ⟨rfl, rfl, rfl,
   (synthetic_id_from_clock [] [] 55 1 2 _ _ rfl rfl rfl rfl).2.2 (by decide)⟩

/-- Concrete fields carrying a falsy `goalsFor` next to a truthy
`teamScore` and a nested `clubs` block for clubs 55 and 77. -/
def clubsNestedFields : List (String × JVal) :=
  [("goalsFor", .jInt 0), ("teamScore", .jInt 5),
   ("clubs", .jObj [("55", .jObj [("goals", .jInt 4)]),
                    ("77", .jObj [("score", .jInt 2)])])]

/-- The `clubs` block of `clubsNestedFields`. -/
def clubsBlock : List (String × JVal) :=
  [("55", .jObj [("goals", .jInt 4)]), ("77", .jObj [("score", .jInt 2)])]

/-- Club 55's nested block in `clubsNestedFields`. -/
def ycBlock : List (String × JVal) := [("goals", JVal.jInt 4)]

/-- The match row `clubsNestedFields` produces for club 55 at clock 0. -/
def rowNested : MatchRow :=
  { match_id := JVal.jInt 0, club_id := 55, opponent_club_id := JVal.jInt 77,
    goals_for := some 4, goals_against := some 2, result := JVal.null,
    match_type := JVal.null, played_at := PlayedAt.none }

/-- Claim C5 counterexample: a present `goalsFor = 0` is *not* used — the
`or` chain is first-truthy, so the stored `goals_for` is the
`teamScore` value 5, not 0. -/
theorem goals_for_zero_counterexample :
    (extract_match_row mZeroGoalsFor 55 0).map MatchRow.goals_for
      = some (some 5) ∧
    ¬ (extract_match_row mZeroGoalsFor 55 0).map MatchRow.goals_for
        = some (some 0) := by
  refine ⟨rfl, ?_⟩
  intro hcontra
  rw [show (extract_match_row mZeroGoalsFor 55 0).map MatchRow.goals_for
      = some (some 5) from rfl] at hcontra
  simp at hcontra

/-- Claim C5 amended: each fallback chain takes the first *truthy* value
(so a present `goalsFor = 0` falls through to `teamScore`), and a
truthy nested `clubs[club_id_str].goals` value takes precedence over
the flat fields for `goals_for` — symmetrically, the other club's
truthy nested `goals` takes precedence for `goals_against`. -/
theorem goals_chain_first_truthy :
    (∀ (fs : List (String × JVal)) (c t : Int) (r : MatchRow),
       extract_match_row (JVal.jObj fs) c t = some r →
       objLookup fs "clubs" = none →
       (pyTruthy (pGet fs "goalsFor") = true →
          pyInt (pGet fs "goalsFor") = r.goals_for) ∧
       (pGet fs "goalsFor" = JVal.jInt 0 →
          pyTruthy (pGet fs "teamScore") = true →
          pyInt (pGet fs "teamScore") = r.goals_for)) ∧
    (∀ (fs cb yc : List (String × JVal)) (c t : Int) (r : MatchRow),
       extract_match_row (JVal.jObj fs) c t = some r →
       objLookup fs "clubs" = some (JVal.jObj cb) →
       objLookup cb (toString c) = some (JVal.jObj yc) →
       pyTruthy (pGet yc "goals") = true →
       pyInt (pGet yc "goals") = r.goals_for) ∧
    (∀ (fs cb yc ob : List (String × JVal)) (c t : Int) (r : MatchRow)
       (oid : String) (restIds : List String),
       extract_match_row (JVal.jObj fs) c t = some r →
       objLookup fs "clubs" = some (JVal.jObj cb) →
       objLookup cb (toString c) = some (JVal.jObj yc) →
       (cb.map (fun (p : String × JVal) => p.1)).filter
           (fun s => s ≠ toString c) = oid :: restIds →
       objLookup cb oid = some (JVal.jObj ob) →
       pyTruthy (pGet ob "goals") = true →
       pyInt (pGet ob "goals") = r.goals_against) := by
  refine ⟨?_, ?_, ?_⟩
  · intro fs c t r hr hc
    obtain ⟨hgf, _, _⟩ := extract_match_row_eq fs c t r hr
    rw [clubsRefine_no_clubs fs c hc] at hgf
    constructor
    · intro ht
      have hflat : flatGF fs = pGet fs "goalsFor" := by
        simp [flatGF, pyOr, ht]
      rw [hflat] at hgf
      exact intOrNull_truthy (pGet fs "goalsFor") r.goals_for ht hgf
    · intro h0 ht
      have hflat : flatGF fs = pGet fs "teamScore" := by
        simp [flatGF, h0, pyOr, pyTruthy]
      rw [hflat] at hgf
      exact intOrNull_truthy (pGet fs "teamScore") r.goals_for ht hgf
  · intro fs cb yc c t r hr hc hyc ht
    obtain ⟨hgf, _, _⟩ := extract_match_row_eq fs c t r hr
    rw [clubsRefine_yours fs cb yc c hc hyc] at hgf
    have hsel : pyOr (pGet yc "goals") (pyOr (pGet yc "score") (flatGF fs))
        = pGet yc "goals" := by
      simp [pyOr, ht]
    rw [hsel] at hgf
    exact intOrNull_truthy (pGet yc "goals") r.goals_for ht hgf
  · intro fs cb yc ob c t r oid restIds hr hc hyc hids hob ht
    obtain ⟨_, hga, _⟩ := extract_match_row_eq fs c t r hr
    rw [clubsRefine_opp fs cb yc ob c oid restIds hc hyc hids hob] at hga
    have hsel : pyOr (pGet ob "goals") (pyOr (pGet ob "score") (flatGA fs))
        = pGet ob "goals" := by
      simp [pyOr, ht]
    rw [hsel] at hga
    exact intOrNull_truthy (pGet ob "goals") r.goals_against ht hga

/-- Witness for the amended C5 statement: the nested block's `goals = 4`
wins over the flat `goalsFor`/`teamScore` fields. -/
theorem goals_chain_first_truthy_witness :
    extract_match_row (JVal.jObj clubsNestedFields) 55 0 = some rowNested ∧
    objLookup clubsNestedFields "clubs" = some (JVal.jObj clubsBlock) ∧
    objLookup clubsBlock (toString (55 : Int)) = some (JVal.jObj ycBlock) ∧
    pyTruthy (pGet ycBlock "goals") = true ∧
    pyInt (pGet ycBlock "goals") = rowNested.goals_for :=
  ⟨rfl, rfl, rfl, rfl,
   goals_chain_first_truthy.2.1 clubsNestedFields clubsBlock ycBlock 55 0
     rowNested rfl rfl rfl rfl⟩
